import Mathlib

/-!
Shallow embedding of the publishing client of `raboof/beats-output-http`
(file `src/client.go`, together with the error sentinels declared in
`src/http/http.go`).

The HTTP network is external and nondeterministic, so every network-facing
function takes the outcome of the round trip as an explicit input
(`ReqOutcome`).  Machine integers that matter here are slice lengths and
expvar counters; both are modelled as `Int`/`Nat` (no overflow is reachable
for the properties below).  Go `error` values are modelled by the inductive
`GoError`; the two package sentinels `ErrNotConnected` and
`ErrJSONEncodeFailed` are its first two constructors, and errors produced
fresh (by the transport, by `fmt.Errorf`, by `http.NewRequest`, or by the
body read) are the remaining constructors, so Go pointer-equality against a
sentinel coincides with constructor equality here.
-/

namespace BeatsHttp

/-- Go `error` values reachable in `client.go`.  `notConnected` is the
sentinel `ErrNotConnected`, `jsonEncodeFailed` is `ErrJSONEncodeFailed`;
the other constructors are freshly allocated errors, never equal to the
sentinels. -/
inductive GoError where
  | notConnected
  | jsonEncodeFailed
  | transport (msg : String)
  | httpStatus (status : Nat) (statusText : String)
  | bodyRead (msg : String)
  | newRequest (msg : String)
deriving DecidableEq, Repr

/-- An event record handed to the client.  The payload is opaque to the
core; `encodable` records whether the owned body encoder can marshal it
(see `marshalOk`). -/
structure Event where
  payload : String
  encodable : Bool
deriving DecidableEq, Repr

/-- Result of `ioutil.ReadAll(resp.Body)` on a response whose status was
below 300: either the full body bytes, or a read error. -/
inductive ReadResult where
  | ok (bytes : List Nat)
  | fail (msg : String)
deriving DecidableEq, Repr

/-- Outcome of `conn.http.Do(req)`: a transport-level failure (DNS, dial,
TLS handshake, timeout), or a completed round trip carrying the status
code, the status line text, and the subsequent body-read outcome. -/
inductive DoResult where
  | failure (msg : String)
  | success (status : Nat) (statusText : String) (body : ReadResult)
deriving DecidableEq, Repr

/-- Outcome of one attempted request: `http.NewRequest` may fail before
anything is sent, otherwise the request is sent and the network answers
with a `DoResult`. -/
inductive ReqOutcome where
  | newRequestError (msg : String)
  | sent (r : DoResult)
deriving DecidableEq, Repr

/-- The `Connection` struct of `client.go` (the `http.Client` and the
encoder instance are not data the claims observe; the encoder behaviour is
captured by `marshalOk`). -/
structure Connection where
  URL : String
  Username : String
  Password : String
  connected : Bool
deriving DecidableEq, Repr

/-- Result triple `(int, []byte, error)` of the request/execute path.  A
Go `nil` byte slice is `none`. -/
structure ExecResult where
  status : Nat
  body : Option (List Nat)
  err : Option GoError
deriving DecidableEq, Repr

/-- Modelled from the spec: the body encoder is not under `src/`; per the
spec, `Marshal(event)` fails with an encode error exactly when the event
cannot be represented as JSON, which the `Event` model records in its
`encodable` field. -/
def marshalOk (e : Event) : Bool :=
  e.encodable

/-- `Connection.execHTTPRequest` of `client.go`: transport failure sets
`connected = false` and returns `(0, nil, err)`; a completed round trip
with status at least 300 sets `connected = false` and returns
`(status, nil, statusError)`; otherwise the body is read, a read failure
sets `connected = false` and returns `(status, nil, err)`, and on success
`(status, body, nil)` is returned with the connection untouched. -/
def execHTTPRequest (conn : Connection) (r : DoResult) : Connection × ExecResult :=
  match r with
  | .failure msg => ({ conn with connected := false }, ⟨0, none, some (.transport msg)⟩)
  | .success status statusText body =>
    if 300 ≤ status then
      ({ conn with connected := false }, ⟨status, none, some (.httpStatus status statusText)⟩)
    else
      match body with
      | .fail msg => ({ conn with connected := false }, ⟨status, none, some (.bodyRead msg)⟩)
      | .ok bytes => (conn, ⟨status, some bytes, none⟩)

/-- `Connection.execRequest` of `client.go`: a `http.NewRequest` failure
returns `(0, nil, err)` without touching the connection; otherwise the
request is executed. -/
def execRequest (conn : Connection) (o : ReqOutcome) : Connection × ExecResult :=
  match o with
  | .newRequestError msg => (conn, ⟨0, none, some (.newRequest msg)⟩)
  | .sent r => execHTTPRequest conn r

/-- `Connection.request` of `client.go`: a `nil` body skips encoding; a
non-nil body is marshalled first, and a marshal failure returns
`(0, nil, ErrJSONEncodeFailed)` without sending anything. -/
def request (conn : Connection) (body : Option Event) (o : ReqOutcome) :
    Connection × ExecResult :=
  match body with
  | none => execRequest conn o
  | some ev =>
    if marshalOk ev then execRequest conn o
    else (conn, ⟨0, none, some .jsonEncodeFailed⟩)

/-- `Client.PublishEvent` of `client.go`: refuse when not connected,
otherwise POST the event and classify the `(status, err)` pair exactly as
the Go `switch` does. -/
def publishEvent (conn : Connection) (data : Event) (o : ReqOutcome) :
    Connection × Option GoError :=
  if conn.connected = false then (conn, some .notConnected)
  else
    let res := request conn (some data) o
    if res.2.err = some .jsonEncodeFailed then (res.1, none)
    else if res.2.status = 0 then (res.1, none)
    else if 500 ≤ res.2.status ∨ res.2.status = 429 then (res.1, res.2.err)
    else if 300 ≤ res.2.status ∧ res.2.status < 500 then (res.1, none)
    else (res.1, none)

/-- The publishing client state visible to the claims: the embedded
connection plus the three expvar counters touched by `PublishEvents`. -/
structure ClientState where
  conn : Connection
  publishEventsCallCount : Int
  ackedEvents : Int
  eventsNotAcked : Int
deriving DecidableEq, Repr

/-- The `for _, event := range data` loop of `Client.PublishEvents`: events
are attempted one at a time in input order (the world is indexed by the
attempt position), and the first non-nil `PublishEvent` result stops the
loop. -/
def publishLoop (world : Nat → ReqOutcome) :
    Connection → Nat → List Event → Connection × Option GoError
  | conn, _, [] => (conn, none)
  | conn, i, e :: rest =>
    let r := publishEvent conn e (world i)
    match r.2 with
    | some sendErr => (r.1, some sendErr)
    | none => publishLoop world r.1 (i + 1) rest

/-- `Client.PublishEvents` of `client.go`: the call counter is incremented
first, then the empty batch returns `(nil, nil)`, a disconnected client
returns the whole batch with `ErrNotConnected`, and otherwise the loop
runs; on a loop error `(nil, sendErr)` is returned at once, and on full
success the ack counters are updated from `failedEvents` (which the code
never appends to) and `(nil, nil)` is returned. -/
def publishEvents (st : ClientState) (data : List Event) (world : Nat → ReqOutcome) :
    ClientState × Option (List Event) × Option GoError :=
  let st1 := { st with publishEventsCallCount := st.publishEventsCallCount + 1 }
  if data.length = 0 then (st1, none, none)
  else if st1.conn.connected = false then (st1, some data, some .notConnected)
  else
    let failedEvents : List Event := []
    match publishLoop world st1.conn 0 data with
    | (conn2, some sendErr) => ({ st1 with conn := conn2 }, none, some sendErr)
    | (conn2, none) =>
      let st2 := { st1 with
        conn := conn2,
        ackedEvents := st1.ackedEvents + ((data.length : Int) - (failedEvents.length : Int)),
        eventsNotAcked := st1.eventsNotAcked + (failedEvents.length : Int) }
      if 0 < failedEvents.length then (st2, some failedEvents, none)
      else (st2, none, none)

/-! Auxiliary lemma: a completed error-free prefix of the publish loop
composes with the rest of the batch, shifting the world index by the
prefix length. -/

theorem publishLoop_append (world : Nat → ReqOutcome) :
    ∀ (pre : List Event) (conn : Connection) (i : Nat) (rest : List Event),
      (publishLoop world conn i pre).2 = none →
      publishLoop world conn i (pre ++ rest) =
        publishLoop world (publishLoop world conn i pre).1 (i + pre.length) rest := by
  intro pre
  induction pre with
  | nil =>
    intro conn i rest _
    simp [publishLoop]
  | cons e tl ih =>
    intro conn i rest h
    cases he : (publishEvent conn e (world i)).2 with
    | some er =>
      exfalso
      simp [publishLoop, he] at h
    | none =>
      have h2 : (publishLoop world (publishEvent conn e (world i)).1 (i + 1) tl).2 = none := by
        simpa [publishLoop, he] using h
      calc publishLoop world conn i ((e :: tl) ++ rest)
          = publishLoop world (publishEvent conn e (world i)).1 (i + 1) (tl ++ rest) := by
            simp [publishLoop, he]
        _ = publishLoop world (publishLoop world (publishEvent conn e (world i)).1 (i + 1) tl).1
              (i + 1 + tl.length) rest := ih _ _ _ h2
        _ = publishLoop world (publishLoop world conn i (e :: tl)).1 (i + (e :: tl).length) rest := by
            simp [publishLoop, he]
            ring_nf

/-- C1 counterexample: with a connected client and an encodable event, a
TLS-handshake transport failure makes `PublishEvent` return nil, not the
transport error, because the `status == 0` case of the switch fires first;
only the `connected` flag records the failure.  This refutes the claim
that the transport error is returned to the caller. -/
theorem C1_counterexample :
    publishEvent ⟨"http://example.com", "", "", true⟩ ⟨"ev", true⟩
        (.sent (.failure "tls handshake failure")) =
      (⟨"http://example.com", "", "", false⟩, none) := by
  rfl

/-- C1 (amended): on any transport-level failure of the round trip, a
connected client with an encodable event ends with `connected = false`,
and `PublishEvent` returns nil — the transport error is swallowed (status
is 0), surfacing only as `ErrNotConnected` on the next attempt. -/
theorem C1_transport_error (conn : Connection) (ev : Event) (msg : String)
    (hc : conn.connected = true) (he : marshalOk ev = true) :
    publishEvent conn ev (.sent (.failure msg)) =
      ({ conn with connected := false }, none) := by
  simp [publishEvent, hc, request, he, execRequest, execHTTPRequest]

/-- C1 witness: the amended statement at a concrete connected client and
a concrete dial failure. -/
theorem C1_transport_error_witness :
    publishEvent ⟨"http://example.com", "", "", true⟩ ⟨"a", true⟩
        (.sent (.failure "dial tcp: i/o timeout")) =
      (⟨"http://example.com", "", "", false⟩, none) :=
  C1_transport_error ⟨"http://example.com", "", "", true⟩ ⟨"a", true⟩
    "dial tcp: i/o timeout" rfl rfl

/-- C2: for any status at least 500 or equal to 429, a publish attempt on
a connected client with an encodable event returns the non-nil HTTP status
error and sets `connected` to false. -/
theorem C2_retryable_status (conn : Connection) (ev : Event) (s : Nat)
    (txt : String) (b : ReadResult)
    (hc : conn.connected = true) (he : marshalOk ev = true)
    (hs : 500 ≤ s ∨ s = 429) :
    publishEvent conn ev (.sent (.success s txt b)) =
      ({ conn with connected := false }, some (.httpStatus s txt)) := by
  have h300 : 300 ≤ s := by rcases hs with h | h <;> omega
  have h0 : s ≠ 0 := by omega
  simp [publishEvent, hc, request, he, execRequest, execHTTPRequest, h300, h0, hs]

/-- C2 witness: the statement at status 503 on a concrete connected
client. -/
theorem C2_retryable_status_witness :
    publishEvent ⟨"http://example.com", "", "", true⟩ ⟨"a", true⟩
        (.sent (.success 503 "503 Service Unavailable" (.ok []))) =
      (⟨"http://example.com", "", "", false⟩,
        some (.httpStatus 503 "503 Service Unavailable")) :=
  C2_retryable_status ⟨"http://example.com", "", "", true⟩ ⟨"a", true⟩
    503 "503 Service Unavailable" (.ok []) rfl rfl (Or.inl (by decide))

/-- C3: for any status in [300, 500) other than 429, a publish attempt on
a connected client with an encodable event is terminal: `PublishEvent`
returns nil, signalling no retry. -/
theorem C3_terminal_status (conn : Connection) (ev : Event) (s : Nat)
    (txt : String) (b : ReadResult)
    (hc : conn.connected = true) (he : marshalOk ev = true)
    (h1 : 300 ≤ s) (h2 : s < 500) (h3 : s ≠ 429) :
    (publishEvent conn ev (.sent (.success s txt b))).2 = none := by
  have h0 : s ≠ 0 := by omega
  have h4 : ¬ (500 ≤ s ∨ s = 429) := by omega
  have h5 : 300 ≤ s ∧ s < 500 := ⟨h1, h2⟩
  simp [publishEvent, hc, request, he, execRequest, execHTTPRequest, h1, h0, h4, h5]

/-- C3 witness: the statement at status 404 on a concrete connected
client. -/
theorem C3_terminal_status_witness :
    (publishEvent ⟨"http://example.com", "", "", true⟩ ⟨"a", true⟩
        (.sent (.success 404 "404 Not Found" (.ok [])))).2 = none :=
  C3_terminal_status ⟨"http://example.com", "", "", true⟩ ⟨"a", true⟩
    404 "404 Not Found" (.ok []) rfl rfl (by decide) (by decide) (by decide)

/-- C4 counterexample: a round trip that succeeds with status 200 but
whose body read fails sets `connected` to false and returns no body, so
the claim that every successful round trip with status below 300 leaves
`connected` unchanged and yields `(s, body, nil)` is refuted. -/
theorem C4_counterexample :
    publishEvent ⟨"http://example.com", "", "", true⟩ ⟨"ev", true⟩
        (.sent (.success 200 "200 OK" (.fail "unexpected EOF"))) =
      (⟨"http://example.com", "", "", false⟩, none) := by
  rfl

/-- C4 (amended): for any status below 300, when the round trip succeeds
and the body read also succeeds, the execute path leaves the connection
untouched and returns `(s, body, nil)`, and `PublishEvent` returns nil
with `connected` unchanged. -/
theorem C4_success_status (conn : Connection) (ev : Event) (s : Nat)
    (txt : String) (bytes : List Nat)
    (hc : conn.connected = true) (he : marshalOk ev = true) (hs : s < 300) :
    execHTTPRequest conn (.success s txt (.ok bytes)) = (conn, ⟨s, some bytes, none⟩) ∧
    publishEvent conn ev (.sent (.success s txt (.ok bytes))) = (conn, none) := by
  have h1 : ¬ 300 ≤ s := by omega
  have h2 : ¬ (500 ≤ s ∨ s = 429) := by omega
  have h3 : ¬ (300 ≤ s ∧ s < 500) := by omega
  refine ⟨by simp [execHTTPRequest, h1], ?_⟩
  by_cases s0 : s = 0
  · simp [publishEvent, hc, request, he, execRequest, execHTTPRequest, h1, s0]
  · simp [publishEvent, hc, request, he, execRequest, execHTTPRequest, h1, h2, h3, s0]

/-- C4 witness: the amended statement at status 200 with a two-byte body
on a concrete connected client. -/
theorem C4_success_status_witness :
    execHTTPRequest ⟨"http://example.com", "", "", true⟩
        (.success 200 "200 OK" (.ok [123, 125])) =
      (⟨"http://example.com", "", "", true⟩, ⟨200, some [123, 125], none⟩) ∧
    publishEvent ⟨"http://example.com", "", "", true⟩ ⟨"a", true⟩
        (.sent (.success 200 "200 OK" (.ok [123, 125]))) =
      (⟨"http://example.com", "", "", true⟩, none) :=
  C4_success_status ⟨"http://example.com", "", "", true⟩ ⟨"a", true⟩
    200 "200 OK" [123, 125] rfl rfl (by decide)

/-- C5 counterexample: a 404 response (a 4xx-range status other than 429)
on a connected client resets `connected` to false, refuting the claim that
such attempts leave the flag unchanged. -/
theorem C5_counterexample :
    (publishEvent ⟨"http://example.com", "", "", true⟩ ⟨"ev", true⟩
        (.sent (.success 404 "404 Not Found" (.ok [])))).1.connected = false := by
  rfl

/-- C5 (amended): for any status in [300, 500) other than 429, the publish
attempt resets `connected` to false — the execute path disconnects on
every status of at least 300 — even though `PublishEvent` itself returns
nil. -/
theorem C5_client_error_disconnects (conn : Connection) (ev : Event) (s : Nat)
    (txt : String) (b : ReadResult)
    (hc : conn.connected = true) (he : marshalOk ev = true)
    (h1 : 300 ≤ s) (h2 : s < 500) (h3 : s ≠ 429) :
    (publishEvent conn ev (.sent (.success s txt b))).1 =
      { conn with connected := false } := by
  have h0 : s ≠ 0 := by omega
  have h4 : ¬ (500 ≤ s ∨ s = 429) := by omega
  have h5 : 300 ≤ s ∧ s < 500 := ⟨h1, h2⟩
  simp [publishEvent, hc, request, he, execRequest, execHTTPRequest, h1, h0, h4, h5]

/-- C5 witness: the amended statement at status 403 on a concrete
connected client. -/
theorem C5_client_error_disconnects_witness :
    (publishEvent ⟨"http://example.com", "", "", true⟩ ⟨"a", true⟩
        (.sent (.success 403 "403 Forbidden" (.ok [])))).1 =
      ⟨"http://example.com", "", "", false⟩ :=
  C5_client_error_disconnects ⟨"http://example.com", "", "", true⟩ ⟨"a", true⟩
    403 "403 Forbidden" (.ok []) rfl rfl (by decide) (by decide) (by decide)

/-- C6 counterexample: calling `PublishEvents` on the empty batch from a
state whose call counter is 0 leaves the counter at 1, refuting the claim
that the publish-events call counter keeps its prior value. -/
theorem C6_counterexample :
    (publishEvents ⟨⟨"http://example.com", "", "", true⟩, 0, 0, 0⟩ []
        (fun _ => .sent (.success 200 "200 OK" (.ok [])))).1.publishEventsCallCount = 1 := by
  rfl

/-- C6 (amended): on the empty batch `PublishEvents` returns `(nil, nil)`
and leaves the acked and not-acked counters (and the connection)
unchanged, but the publish-events call counter increments by one, because
the counter is bumped before the empty-batch check. -/
theorem C6_empty_batch (st : ClientState) (world : Nat → ReqOutcome) :
    publishEvents st [] world =
      ({ st with publishEventsCallCount := st.publishEventsCallCount + 1 }, none, none) := by
  simp [publishEvents]

/-- C7: whenever the connected flag is false, `PublishEvent` returns
`ErrNotConnected` with the connection unchanged for every possible network
outcome (so no request is sent), and `PublishEvents` on a non-empty batch
returns the entire input batch unchanged together with `ErrNotConnected`,
for every possible world. -/
theorem C7_not_connected (conn : Connection) (ev : Event) (o : ReqOutcome)
    (st : ClientState) (data : List Event) (world : Nat → ReqOutcome)
    (hc : conn.connected = false) (hst : st.conn.connected = false)
    (hd : data ≠ []) :
    publishEvent conn ev o = (conn, some .notConnected) ∧
    publishEvents st data world =
      ({ st with publishEventsCallCount := st.publishEventsCallCount + 1 },
        some data, some .notConnected) := by
  constructor
  · simp [publishEvent, hc]
  · have hlen : data.length ≠ 0 := by simpa using hd
    simp [publishEvents, hst, hlen]

/-- C7 witness: the statement at a concrete disconnected client, a
concrete event and a one-event batch. -/
theorem C7_not_connected_witness :
    publishEvent ⟨"http://example.com", "", "", false⟩ ⟨"a", true⟩
        (.sent (.success 200 "200 OK" (.ok []))) =
      (⟨"http://example.com", "", "", false⟩, some .notConnected) ∧
    publishEvents ⟨⟨"http://example.com", "", "", false⟩, 0, 0, 0⟩ [⟨"a", true⟩]
        (fun _ => .sent (.success 200 "200 OK" (.ok []))) =
      (⟨⟨"http://example.com", "", "", false⟩, 1, 0, 0⟩,
        some [⟨"a", true⟩], some .notConnected) :=
  C7_not_connected ⟨"http://example.com", "", "", false⟩ ⟨"a", true⟩
    (.sent (.success 200 "200 OK" (.ok [])))
    ⟨⟨"http://example.com", "", "", false⟩, 0, 0, 0⟩ [⟨"a", true⟩]
    (fun _ => .sent (.success 200 "200 OK" (.ok []))) rfl rfl
    (List.cons_ne_nil _ _)

/-- C8: on a connected client, events are attempted in input order, and
the first event whose `PublishEvent` call returns a non-nil error aborts
the batch: when the prefix before it publishes without error and that
event errs, `PublishEvents` returns `(nil, thatError)` rather than a
slice of unpublished events. -/
theorem C8_first_error_aborts (st : ClientState) (pre : List Event) (e : Event)
    (suf : List Event) (world : Nat → ReqOutcome) (er : GoError)
    (hc : st.conn.connected = true)
    (hpre : (publishLoop world st.conn 0 pre).2 = none)
    (he : (publishEvent (publishLoop world st.conn 0 pre).1 e (world pre.length)).2 =
      some er) :
    (publishEvents st (pre ++ e :: suf) world).2 = (none, some er) := by
  have hlen : (pre ++ e :: suf).length ≠ 0 := by simp
  have hloop := publishLoop_append world pre st.conn 0 (e :: suf) hpre
  simp only [Nat.zero_add] at hloop
  have hstep :
      publishLoop world st.conn 0 (pre ++ e :: suf) =
        ((publishEvent (publishLoop world st.conn 0 pre).1 e (world pre.length)).1,
          some er) := by
    rw [hloop]
    simp [publishLoop, he]
  simp [publishEvents, hlen, hc, hstep]

/-- C8 witness: with a three-event batch whose second attempt answers 503,
the result is `(nil,` the 503 error`)`. -/
theorem C8_first_error_aborts_witness :
    (publishEvents ⟨⟨"http://example.com", "", "", true⟩, 0, 0, 0⟩
        ([⟨"a", true⟩] ++ ⟨"b", true⟩ :: [⟨"c", true⟩])
        (fun i => if i = 0 then .sent (.success 200 "200 OK" (.ok []))
          else .sent (.success 503 "503 Service Unavailable" (.ok [])))).2 =
      (none, some (.httpStatus 503 "503 Service Unavailable")) :=
  C8_first_error_aborts ⟨⟨"http://example.com", "", "", true⟩, 0, 0, 0⟩
    [⟨"a", true⟩] ⟨"b", true⟩ [⟨"c", true⟩]
    (fun i => if i = 0 then .sent (.success 200 "200 OK" (.ok []))
      else .sent (.success 503 "503 Service Unavailable" (.ok [])))
    (.httpStatus 503 "503 Service Unavailable") rfl (by decide) (by decide)

/-- C9: for every event the encoder cannot marshal, `request` returns
`(0, nil, ErrJSONEncodeFailed)` with the connection untouched regardless
of the network outcome (no request is sent), and `PublishEvent` on a
connected client returns nil with the connection unchanged. -/
theorem C9_unencodable (conn : Connection) (ev : Event) (o : ReqOutcome)
    (hc : conn.connected = true) (he : marshalOk ev = false) :
    request conn (some ev) o = (conn, ⟨0, none, some .jsonEncodeFailed⟩) ∧
    publishEvent conn ev o = (conn, none) := by
  constructor
  · simp [request, he]
  · simp [publishEvent, hc, request, he]

/-- C9 witness: the statement at a concrete unencodable event on a
concrete connected client. -/
theorem C9_unencodable_witness :
    request ⟨"http://example.com", "", "", true⟩ (some ⟨"bad", false⟩)
        (.sent (.success 200 "200 OK" (.ok []))) =
      (⟨"http://example.com", "", "", true⟩, ⟨0, none, some .jsonEncodeFailed⟩) ∧
    publishEvent ⟨"http://example.com", "", "", true⟩ ⟨"bad", false⟩
        (.sent (.success 200 "200 OK" (.ok []))) =
      (⟨"http://example.com", "", "", true⟩, none) :=
  C9_unencodable ⟨"http://example.com", "", "", true⟩ ⟨"bad", false⟩
    (.sent (.success 200 "200 OK" (.ok []))) rfl rfl

/-- C10: for every batch and every world, the unsent-events slice returned
by `PublishEvents` is either nil or the entire input batch, the latter
exactly together with `ErrNotConnected`; a proper non-empty subset is
never returned. -/
theorem C10_unsent_all_or_nothing (st : ClientState) (data : List Event)
    (world : Nat → ReqOutcome) :
    (publishEvents st data world).2.1 = none ∨
    ((publishEvents st data world).2.1 = some data ∧
      (publishEvents st data world).2.2 = some .notConnected) := by
  unfold publishEvents
  by_cases h0 : data.length = 0
  · simp [h0]
  · by_cases hc : st.conn.connected = false
    · simp [h0, hc]
    · cases hl : publishLoop world st.conn 0 data with
      | mk conn2 errOpt =>
        cases errOpt with
        | none => simp [h0, hc, hl]
        | some er => simp [h0, hc, hl]

end BeatsHttp
